import Mathlib

/-!
Verification of the quantum-exposure assessor and address helpers of the
bitcoin-mini backend (`app.py`), as a shallow embedding in Lean 4.

Modelling conventions:
- Python strings are Lean `String`s; `str.lower()` is modelled as an ASCII
  character map over the string's character list.
- Satoshi amounts are `Nat`; BTC amounts (Python floats obtained by `/ 1e8`)
  are modelled exactly as rationals `ℚ`.
- The two gating fetches (address summary, UTXO set) are passed in as
  `Except FetchErr _` values; per-transaction lookup is an oracle function
  `Option String → Except Unit (List VoutEntry)`.
- `HTTPException` outcomes are the inductive `ApiError`.
-/

namespace BitcoinMini

/-- ASCII lower-casing of one character, as Python `str.lower` acts on the
ASCII range (`'A'..'Z'` shifted by 32, everything else unchanged). -/
def lowerChar (c : Char) : Char :=
  if 'A' ≤ c && c ≤ 'Z' then Char.ofNat (c.toNat + 32) else c

/-- `s.lower()` over the string's characters. -/
def strLower (s : String) : String :=
  ⟨s.data.map lowerChar⟩

/-- `EXPOSED_TYPES = {"p2pk", "v1_p2tr"}` (app.py line 95). -/
def EXPOSED_TYPES : List String := ["p2pk", "v1_p2tr"]

/-- `HASHED_TYPES = {"p2pkh", "v0_p2wpkh"}` (app.py line 96). -/
def HASHED_TYPES : List String := ["p2pkh", "v0_p2wpkh"]

/-- `infer_addr_type` (app.py lines 98–104): prefix classification of the
lower-cased address string. -/
def infer_addr_type (addr : String) : String :=
  let a := (strLower addr).data
  if ['b', 'c', '1', 'p'].isPrefixOf a then "p2tr"
  else if ['b', 'c', '1', 'q'].isPrefixOf a then "p2wpkh_or_wsh"
  else if ['1'].isPrefixOf a then "p2pkh"
  else if ['3'].isPrefixOf a then "p2sh"
  else "unknown"

/-- `classify_script_type` (app.py lines 106–114): `None`/empty → unknown,
otherwise case-insensitive membership in the two fixed sets. -/
def classify_script_type (script_type : Option String) : String :=
  match script_type with
  | none => "unknown"
  | some s =>
    if s = "" then "unknown"
    else
      let st := strLower s
      if EXPOSED_TYPES.contains st then "exposed"
      else if HASHED_TYPES.contains st then "hashed"
      else "unknown"

/-- Characters matched by the class `[a-zA-HJ-NP-Z0-9]` of
`MAINNET_ADDR_RE` (app.py line 84): all lowercase letters, uppercase
letters except `I` and `O`, and all digits. -/
def isAddrChar (c : Char) : Bool :=
  ('a' ≤ c && c ≤ 'z') || ('A' ≤ c && c ≤ 'H') || ('J' ≤ c && c ≤ 'N') ||
  ('P' ≤ c && c ≤ 'Z') || ('0' ≤ c && c ≤ '9')

/-- The part of the regex after the prefix: `[a-zA-HJ-NP-Z0-9]{25,87}$`.
Python's `$` also matches just before one trailing newline, so a single
final `'\n'` is stripped before the length/class check. -/
def matchTail (cs : List Char) : Bool :=
  let body := if cs.getLast? = some '\n' then cs.dropLast else cs
  decide (25 ≤ body.length) && decide (body.length ≤ 87) && body.all isAddrChar

/-- `MAINNET_ADDR_RE.match` over the character list: alternation on the
leading `bc1` or `[13]`, then `matchTail` on the remainder. -/
def mainnetMatchList (cs : List Char) : Bool :=
  match cs with
  | 'b' :: 'c' :: '1' :: rest => matchTail rest
  | '1' :: rest => matchTail rest
  | '3' :: rest => matchTail rest
  | _ => false

/-- `MAINNET_ADDR_RE.match` (app.py line 84). -/
def mainnetAddrMatch (s : String) : Bool :=
  mainnetMatchList s.data

/-- The alphabet the spec claims for the validator: letters and digits minus
the visually ambiguous base58 characters `0`, `O`, `I`, `l`. Written from
the spec's words (spec §4.1), for comparison with `isAddrChar`. -/
def claimedAddrChar (c : Char) : Bool :=
  (('a' ≤ c && c ≤ 'z') || ('A' ≤ c && c ≤ 'Z') || ('0' ≤ c && c ≤ '9')) &&
  !(c == '0' || c == 'O' || c == 'I' || c == 'l')

/-- The validator the spec describes, written from the spec's words
(§4.1): a `bc1`/`1`/`3` start followed by 25–87 characters of
`claimedAddrChar`, nothing else accepted. -/
def claimedValidate (s : String) : Bool :=
  match s.data with
  | 'b' :: 'c' :: '1' :: rest =>
    decide (25 ≤ rest.length) && decide (rest.length ≤ 87) && rest.all claimedAddrChar
  | '1' :: rest =>
    decide (25 ≤ rest.length) && decide (rest.length ≤ 87) && rest.all claimedAddrChar
  | '3' :: rest =>
    decide (25 ≤ rest.length) && decide (rest.length ≤ 87) && rest.all claimedAddrChar
  | _ => false

/-- `_validate_btc_addr` (app.py lines 155–156). -/
def _validate_btc_addr (addr : String) : Bool :=
  mainnetAddrMatch addr

/-- One entry of a transaction's `vout` list, carrying its optional
`scriptpubkey_type` string. -/
structure VoutEntry where
  scriptpubkey_type : Option String
deriving DecidableEq

/-- One element of the UTXO-set response: `u.get("txid")`, `u.get("vout")`,
`u.get("value", 0) or 0` (the defaulted value in satoshis). -/
structure Utxo where
  txid : Option String
  vout : Option Nat
  value : Nat
deriving DecidableEq

/-- The `chain_stats` / `mempool_stats` objects of the Blockstream address
summary. -/
structure AddrStats where
  funded_txo_sum : Nat
  spent_txo_sum : Nat
  spent_txo_count : Nat
deriving DecidableEq

/-- The address-summary response body. -/
structure AddrInfo where
  chain_stats : AddrStats
  mempool_stats : AddrStats
deriving DecidableEq

/-- Failure of one of the gating fetches: an `httpx.HTTPStatusError`
carrying the upstream status, or any other exception. -/
inductive FetchErr where
  | httpStatus (code : Nat)
  | other
deriving DecidableEq

/-- The `HTTPException` outcomes of the endpoint: 400 invalid address,
upstream error with preserved status, or 502 generic failure. -/
inductive ApiError where
  | invalidInput
  | upstream (code : Nat)
  | genericFailure
deriving DecidableEq

/-- The two `except` clauses of app.py lines 232–235: an HTTP status error
surfaces the upstream status, anything else a generic 502 failure. -/
def mapFetchErr : FetchErr → ApiError
  | .httpStatus c => .upstream c
  | .other => .genericFailure

/-- Resolution of one UTXO's script type (app.py lines 243–250): fetch the
transaction by txid; on success read `vout[vout_index].scriptpubkey_type`
when the index is in range; on any failure or out-of-range index the
script type stays absent. -/
def resolve_script_type (txFetch : Option String → Except Unit (List VoutEntry))
    (u : Utxo) : Option String :=
  match txFetch u.txid with
  | .error _ => none
  | .ok vouts =>
    match u.vout with
    | none => none
    | some i =>
      match vouts[i]? with
      | some v => v.scriptpubkey_type
      | none => none

/-- One record of the `analyzed` list (app.py lines 254–260). -/
structure AnalyzedUtxo where
  txid : Option String
  vout : Option Nat
  value_btc : ℚ
  scriptpubkey_type : Option String
  risk : String
deriving DecidableEq

/-- The loop body of app.py lines 239–260 for one UTXO: value converted to
BTC, script type resolved, risk classified. -/
def analyze_utxo (txFetch : Option String → Except Unit (List VoutEntry))
    (u : Utxo) : AnalyzedUtxo :=
  let st := resolve_script_type txFetch u
  { txid := u.txid
    vout := u.vout
    value_btc := (u.value : ℚ) / 100000000
    scriptpubkey_type := st
    risk := classify_script_type st }

/-- The running `exposed_value` accumulation of app.py lines 252–253 over
the analyzed list. -/
def exposed_value_of (analyzed : List AnalyzedUtxo) : ℚ :=
  analyzed.foldl (fun acc a => if a.risk = "exposed" then acc + a.value_btc else acc) 0

/-- `reuse_pubkey_exposed` (app.py line 266). -/
def reuse_pubkey_exposed (spent_txo_count : Nat) (hint : String)
    (analyzedCount : Nat) : Bool :=
  decide (0 < spent_txo_count) &&
  (hint == "p2pkh" || hint == "p2wpkh_or_wsh") &&
  decide (0 < analyzedCount)

/-- The `overall` risk verdict (app.py lines 268–273). -/
def overall_of (analyzed : List AnalyzedUtxo) (reuse : Bool) : String :=
  if analyzed.any (fun u => u.risk == "exposed") then "high"
  else if reuse then "elevated"
  else "low"

/-- The reuse advisory appended at app.py line 277. -/
def reuse_note : String :=
  "Address appears reused: its public key may already be on-chain; remaining funds at this address inherit that exposure."

/-- The migration advisory appended at app.py line 279. -/
def migration_note : String :=
  "Some UTXOs are Taproot/P2PK (public key in script). Consider moving to a fresh P2WPKH (bc1q...) until PQ schemes exist."

/-- The notes assembly of app.py lines 275–279. -/
def notes_of (reuse : Bool) (overall : String) : List String :=
  (if reuse then [reuse_note] else []) ++
  (if overall = "high" then [migration_note] else [])

/-- The JSON report returned at app.py lines 281–289. -/
structure Report where
  address : String
  address_type_hint : String
  overall_risk : String
  exposed_value_btc : ℚ
  analyzed_utxos : Nat
  utxos : List AnalyzedUtxo
  notes : List String
deriving DecidableEq

/-- The successful path of `quantum_exposure` (app.py lines 237–289): cap
the UTXO list at 50, analyze each entry, accumulate exposed value, compute
the reuse signal and the overall verdict, and assemble the report. -/
def build_report (txFetch : Option String → Except Unit (List VoutEntry))
    (addr : String) (addr_info : AddrInfo) (utxos : List Utxo) : Report :=
  let analyzed := (utxos.take 50).map (analyze_utxo txFetch)
  let exposed_value := exposed_value_of analyzed
  let addr_type_hint := infer_addr_type addr
  let spent_txo_count := addr_info.chain_stats.spent_txo_count
  let reuse := reuse_pubkey_exposed spent_txo_count addr_type_hint analyzed.length
  let overall := overall_of analyzed reuse
  { address := addr
    address_type_hint := addr_type_hint
    overall_risk := overall
    exposed_value_btc := exposed_value
    analyzed_utxos := analyzed.length
    utxos := analyzed
    notes := notes_of reuse overall }

/-- `quantum_exposure` (app.py lines 220–289): validation gate, the two
gating fetches in order, then the report. -/
def quantum_exposure (txFetch : Option String → Except Unit (List VoutEntry))
    (addr : String) (addrFetch : Except FetchErr AddrInfo)
    (utxoFetch : Except FetchErr (List Utxo)) : Except ApiError Report :=
  if !_validate_btc_addr addr then .error .invalidInput
  else
    match addrFetch with
    | .error e => .error (mapFetchErr e)
    | .ok addr_info =>
      match utxoFetch with
      | .error e => .error (mapFetchErr e)
      | .ok utxos => .ok (build_report txFetch addr addr_info utxos)

/-- The address-summary record returned by `_address_summary`. -/
structure AddressSummary where
  received_btc : ℚ
  balance_btc : ℚ
deriving DecidableEq

/-- The `funded` total of app.py line 165, in BTC. -/
def funded_btc (info : AddrInfo) : ℚ :=
  ((info.chain_stats.funded_txo_sum + info.mempool_stats.funded_txo_sum : ℕ) : ℚ) / 100000000

/-- The `spent` total of app.py line 166, in BTC. -/
def spent_btc (info : AddrInfo) : ℚ :=
  ((info.chain_stats.spent_txo_sum + info.mempool_stats.spent_txo_sum : ℕ) : ℚ) / 100000000

/-- `_address_summary` (app.py lines 158–172): `received_btc = funded`,
`balance_btc = max(received_btc - spent, 0)`. -/
def _address_summary (info : AddrInfo) : AddressSummary :=
  { received_btc := funded_btc info
    balance_btc := max (funded_btc info - spent_btc info) 0 }

/-! Concrete fixtures used by the witness theorems. -/

/-- A transaction oracle on which every lookup fails. -/
def txOracleFail : Option String → Except Unit (List VoutEntry) :=
  fun _ => Except.error ()

/-- A transaction oracle returning a single Taproot output for every txid. -/
def txOracleTaproot : Option String → Except Unit (List VoutEntry) :=
  fun _ => Except.ok [⟨some "v1_p2tr"⟩]

/-- A well-formed mainnet P2PKH address (the genesis address). -/
def genesisAddr : String := "1A1zP1eP5QGefi2DMPTfTL5SLmv7DivfNa"

/-- Address summary with two historical spent outputs. -/
def infoSpent2 : AddrInfo := ⟨⟨0, 0, 2⟩, ⟨0, 0, 0⟩⟩

/-- A 0.5-coin UTXO at output index 0 of transaction `t1`. -/
def utxoHalf : Utxo := ⟨some "t1", some 0, 50000000⟩

lemma quantum_exposure_ok_iff (txF : Option String → Except Unit (List VoutEntry))
    (addr : String) (info : AddrInfo) (us : List Utxo) (r : Report) :
    quantum_exposure txF addr (.ok info) (.ok us) = .ok r ↔
      (_validate_btc_addr addr = true ∧ r = build_report txF addr info us) := by
  unfold quantum_exposure
  by_cases hv : _validate_btc_addr addr <;> simp [hv, eq_comm]

lemma exposed_value_foldl (l : List AnalyzedUtxo) (acc : ℚ) :
    l.foldl (fun acc a => if a.risk = "exposed" then acc + a.value_btc else acc) acc
      = acc + ((l.filter (fun a => a.risk == "exposed")).map (fun a => a.value_btc)).sum := by
  induction l generalizing acc with
  | nil => simp
  | cons a t ih =>
    by_cases ha : a.risk = "exposed"
    · simp [ha, ih, add_assoc]
    · simp [ha, ih]

lemma exposed_value_eq_sum (l : List AnalyzedUtxo) :
    exposed_value_of l
      = ((l.filter (fun a => a.risk == "exposed")).map (fun a => a.value_btc)).sum := by
  simpa [exposed_value_of] using exposed_value_foldl l 0

lemma overall_of_spec (A : List AnalyzedUtxo) (b : Bool) :
    (overall_of A b = "high" ↔ ∃ u ∈ A, u.risk = "exposed") ∧
    (overall_of A b = "elevated" ↔ (¬ ∃ u ∈ A, u.risk = "exposed") ∧ b = true) ∧
    (overall_of A b = "low" ↔ (¬ ∃ u ∈ A, u.risk = "exposed") ∧ b = false) := by
  unfold overall_of
  by_cases hA : (A.any fun u => u.risk == "exposed") = true
  · have hex : ∃ u ∈ A, u.risk = "exposed" := by simpa using hA
    simp [hA, hex]
  · have hex : ¬ ∃ u ∈ A, u.risk = "exposed" := by simpa using hA
    cases b <;> simp [hA, hex]

/-- Claim C1: for every assessment that completes, `overall_risk` is `"high"` iff
some analyzed UTXO has risk `"exposed"` (regardless of the reuse signal);
otherwise `"elevated"` iff the reuse signal holds; otherwise `"low"`. -/
theorem overall_risk_spec (txF : Option String → Except Unit (List VoutEntry))
    (addr : String) (info : AddrInfo) (us : List Utxo) (r : Report)
    (h : quantum_exposure txF addr (.ok info) (.ok us) = .ok r) :
    (r.overall_risk = "high" ↔ ∃ u ∈ r.utxos, u.risk = "exposed") ∧
    (r.overall_risk = "elevated" ↔
      (¬ ∃ u ∈ r.utxos, u.risk = "exposed") ∧
      reuse_pubkey_exposed info.chain_stats.spent_txo_count (infer_addr_type addr)
        r.analyzed_utxos = true) ∧
    (r.overall_risk = "low" ↔
      (¬ ∃ u ∈ r.utxos, u.risk = "exposed") ∧
      reuse_pubkey_exposed info.chain_stats.spent_txo_count (infer_addr_type addr)
        r.analyzed_utxos = false) := by
  obtain ⟨hv, hr⟩ := (quantum_exposure_ok_iff txF addr info us r).mp h
  subst hr
  simpa [build_report] using
    overall_of_spec ((us.take 50).map (analyze_utxo txF))
      (reuse_pubkey_exposed info.chain_stats.spent_txo_count (infer_addr_type addr)
        ((us.take 50).map (analyze_utxo txF)).length)

/-- Witness for C1 at a concrete completed assessment (genesis address, two
historical spends, empty UTXO set): the verdict is `"low"`. -/
theorem overall_risk_spec_witness :
    (build_report txOracleFail genesisAddr infoSpent2 []).overall_risk = "low" :=
  ((overall_risk_spec txOracleFail genesisAddr infoSpent2 []
      (build_report txOracleFail genesisAddr infoSpent2 []) rfl).2.2).mpr
    ⟨by decide, by decide⟩

/-- Claim C2: a completed assessment analyzes exactly the first `min 50 length`
UTXOs in source order; `exposed_value` is the sum of `value / 100000000`
over exactly the analyzed UTXOs whose risk is `"exposed"`; entries beyond
the cap contribute nothing (the whole report equals the one computed from
the truncated UTXO set). -/
theorem exposed_value_cap_spec (txF : Option String → Except Unit (List VoutEntry))
    (addr : String) (info : AddrInfo) (us : List Utxo) (r : Report)
    (h : quantum_exposure txF addr (.ok info) (.ok us) = .ok r) :
    r.utxos = (us.take 50).map (analyze_utxo txF) ∧
    r.analyzed_utxos = min 50 us.length ∧
    r.exposed_value_btc
      = ((r.utxos.filter fun a => a.risk == "exposed").map fun a => a.value_btc).sum ∧
    (∀ u ∈ r.utxos, u.value_btc * 100000000 ∈ (us.take 50).map (fun u => (u.value : ℚ))) ∧
    quantum_exposure txF addr (.ok info) (.ok us)
      = quantum_exposure txF addr (.ok info) (.ok (us.take 50)) := by
  obtain ⟨hv, hr⟩ := (quantum_exposure_ok_iff txF addr info us r).mp h
  subst hr
  refine ⟨rfl, by simp [build_report], ?_, ?_, ?_⟩
  · simp [build_report, exposed_value_eq_sum]
  · intro u hu
    simp only [build_report, List.mem_map] at hu ⊢
    obtain ⟨v, hv_mem, rfl⟩ := hu
    exact ⟨v, hv_mem, by simp [analyze_utxo]⟩
  · simp [quantum_exposure, hv, build_report, List.take_take]

/-- Witness for C2 at a concrete completed assessment with one exposed
(Taproot) 0.5-coin UTXO. -/
theorem exposed_value_cap_spec_witness :
    (build_report txOracleTaproot genesisAddr infoSpent2 [utxoHalf]).exposed_value_btc
      = (((build_report txOracleTaproot genesisAddr infoSpent2 [utxoHalf]).utxos.filter
          fun a => a.risk == "exposed").map fun a => a.value_btc).sum :=
  (exposed_value_cap_spec txOracleTaproot genesisAddr infoSpent2 [utxoHalf]
      (build_report txOracleTaproot genesisAddr infoSpent2 [utxoHalf]) rfl).2.2.1

/-- Claim C4: in every completed assessment the overall verdict and the notes are
driven by the reuse signal `reuse_pubkey_exposed`, and that signal is true
iff the historical spent-output count is positive, the address-type hint
(computed by prefix from the original address) is `p2pkh` or
`p2wpkh_or_wsh`, and at least one UTXO was analyzed; with zero analyzed
UTXOs it is false even when the spent count is positive. -/
theorem reuse_signal_spec (txF : Option String → Except Unit (List VoutEntry))
    (addr : String) (info : AddrInfo) (us : List Utxo) (r : Report)
    (h : quantum_exposure txF addr (.ok info) (.ok us) = .ok r) :
    (r.overall_risk = overall_of r.utxos
        (reuse_pubkey_exposed info.chain_stats.spent_txo_count (infer_addr_type addr)
          r.analyzed_utxos)) ∧
    (r.notes = notes_of
        (reuse_pubkey_exposed info.chain_stats.spent_txo_count (infer_addr_type addr)
          r.analyzed_utxos) r.overall_risk) ∧
    (reuse_pubkey_exposed info.chain_stats.spent_txo_count (infer_addr_type addr)
        r.analyzed_utxos = true ↔
      (0 < info.chain_stats.spent_txo_count ∧
       (infer_addr_type addr = "p2pkh" ∨ infer_addr_type addr = "p2wpkh_or_wsh") ∧
       0 < r.analyzed_utxos)) ∧
    (r.analyzed_utxos = 0 →
      reuse_pubkey_exposed info.chain_stats.spent_txo_count (infer_addr_type addr)
        r.analyzed_utxos = false) := by
  obtain ⟨hv, hr⟩ := (quantum_exposure_ok_iff txF addr info us r).mp h
  subst hr
  refine ⟨rfl, rfl, ?_, ?_⟩
  · simp [reuse_pubkey_exposed, and_assoc]
  · intro h0
    simp [build_report] at h0
    simp [build_report, reuse_pubkey_exposed, h0]

/-- Witness for C4: genesis address (p2pkh hint), two historical spends, one
analyzed UTXO — the reuse signal is true. -/
theorem reuse_signal_spec_witness :
    reuse_pubkey_exposed infoSpent2.chain_stats.spent_txo_count
      (infer_addr_type genesisAddr)
      (build_report txOracleTaproot genesisAddr infoSpent2 [utxoHalf]).analyzed_utxos
      = true :=
  (reuse_signal_spec txOracleTaproot genesisAddr infoSpent2 [utxoHalf]
      (build_report txOracleTaproot genesisAddr infoSpent2 [utxoHalf]) rfl).2.2.1.mpr
    ⟨by decide, Or.inl (by decide), by decide⟩

lemma notes_of_spec (b : Bool) (o : String) :
    (reuse_note ∈ notes_of b o ↔ b = true) ∧
    (migration_note ∈ notes_of b o ↔ o = "high") ∧
    (∀ n ∈ notes_of b o, n = reuse_note ∨ n = migration_note) ∧
    (b = true → o = "high" → notes_of b o = [reuse_note, migration_note]) ∧
    (o = "low" → b = false → notes_of b o = []) := by
  have hne : reuse_note ≠ migration_note := by decide
  by_cases ho : o = "high"
  · cases b <;> simp [notes_of, ho, hne, hne.symm]
  · cases b <;> simp [notes_of, ho, hne, hne.symm]

/-- Claim C9: in every completed assessment the notes contain the reuse advisory
iff the reuse signal is true, contain the migration advisory iff the
overall risk is `"high"`, contain nothing else, list the reuse advisory
first when both are present, and are empty when the risk is `"low"` and the
reuse signal is false. -/
theorem notes_spec (txF : Option String → Except Unit (List VoutEntry))
    (addr : String) (info : AddrInfo) (us : List Utxo) (r : Report)
    (h : quantum_exposure txF addr (.ok info) (.ok us) = .ok r) :
    (reuse_note ∈ r.notes ↔
      reuse_pubkey_exposed info.chain_stats.spent_txo_count (infer_addr_type addr)
        r.analyzed_utxos = true) ∧
    (migration_note ∈ r.notes ↔ r.overall_risk = "high") ∧
    (∀ n ∈ r.notes, n = reuse_note ∨ n = migration_note) ∧
    (reuse_pubkey_exposed info.chain_stats.spent_txo_count (infer_addr_type addr)
        r.analyzed_utxos = true → r.overall_risk = "high" →
      r.notes = [reuse_note, migration_note]) ∧
    (r.overall_risk = "low" →
      reuse_pubkey_exposed info.chain_stats.spent_txo_count (infer_addr_type addr)
        r.analyzed_utxos = false →
      r.notes = []) := by
  obtain ⟨hv, hr⟩ := (quantum_exposure_ok_iff txF addr info us r).mp h
  subst hr
  exact notes_of_spec _ _

/-- Witness for C9: with a reused p2pkh address and one exposed UTXO both
advisories appear, the reuse advisory first. -/
theorem notes_spec_witness :
    (build_report txOracleTaproot genesisAddr infoSpent2 [utxoHalf]).notes
      = [reuse_note, migration_note] :=
  ((notes_spec txOracleTaproot genesisAddr infoSpent2 [utxoHalf]
      (build_report txOracleTaproot genesisAddr infoSpent2 [utxoHalf]) rfl).2.2.2.1)
    (by decide) (by decide)

/-- Claim C3: the script risk classifier is a pure case-insensitive table:
`"exposed"` exactly for strings lower-casing to `p2pk` or `v1_p2tr`,
`"hashed"` exactly for `p2pkh` or `v0_p2wpkh`, and `"unknown"` for `None`
and every other string. -/
theorem classify_script_type_spec :
    classify_script_type none = "unknown" ∧
    ∀ s : String,
      (classify_script_type (some s) = "exposed" ↔
        (strLower s = "p2pk" ∨ strLower s = "v1_p2tr")) ∧
      (classify_script_type (some s) = "hashed" ↔
        (strLower s = "p2pkh" ∨ strLower s = "v0_p2wpkh")) ∧
      ((strLower s ≠ "p2pk" ∧ strLower s ≠ "v1_p2tr" ∧
        strLower s ≠ "p2pkh" ∧ strLower s ≠ "v0_p2wpkh") →
        classify_script_type (some s) = "unknown") := by
  refine ⟨rfl, fun s => ?_⟩
  by_cases hs : s = ""
  · subst hs
    refine ⟨by simp [classify_script_type, strLower], by simp [classify_script_type, strLower], fun _ => rfl⟩
  · simp only [classify_script_type, hs, if_false]
    by_cases h1 : strLower s = "p2pk" <;>
      by_cases h2 : strLower s = "v1_p2tr" <;>
        by_cases h3 : strLower s = "p2pkh" <;>
          by_cases h4 : strLower s = "v0_p2wpkh" <;>
            simp [EXPOSED_TYPES, HASHED_TYPES, h1, h2, h3, h4]

/-- Claim C5: a failing transaction lookup or an out-of-range vout degrades that
one UTXO to an absent script type and `"unknown"` risk; the assessment
still completes with a full report, and each UTXO's classification depends
only on the oracle's answer for its own txid (so the others are classified
exactly as if the failing lookup had succeeded). -/
theorem per_utxo_failure_spec
    (txF txF2 : Option String → Except Unit (List VoutEntry))
    (addr : String) (info : AddrInfo) (us : List Utxo)
    (hv : _validate_btc_addr addr = true) :
    (quantum_exposure txF addr (.ok info) (.ok us)
        = .ok (build_report txF addr info us) ∧
      (build_report txF addr info us).utxos = (us.take 50).map (analyze_utxo txF)) ∧
    (∀ u : Utxo, ∀ e, txF u.txid = .error e →
      (analyze_utxo txF u).scriptpubkey_type = none ∧
      (analyze_utxo txF u).risk = "unknown") ∧
    (∀ u : Utxo, ∀ vouts, txF u.txid = .ok vouts → ∀ i, u.vout = some i →
      vouts.length ≤ i →
      (analyze_utxo txF u).scriptpubkey_type = none ∧
      (analyze_utxo txF u).risk = "unknown") ∧
    (∀ u : Utxo, txF u.txid = txF2 u.txid → analyze_utxo txF u = analyze_utxo txF2 u) := by
  refine ⟨⟨(quantum_exposure_ok_iff txF addr info us _).mpr ⟨hv, rfl⟩, rfl⟩, ?_, ?_, ?_⟩
  · intro u e he
    simp [analyze_utxo, resolve_script_type, he, classify_script_type]
  · intro u vouts hok i hi hlen
    simp [analyze_utxo, resolve_script_type, hok, hi,
      List.getElem?_eq_none hlen, classify_script_type]
  · intro u hagree
    simp [analyze_utxo, resolve_script_type, hagree]

/-- Witness for C5 at the failing oracle: the lone UTXO is degraded to
`"unknown"` risk. -/
theorem per_utxo_failure_spec_witness :
    (analyze_utxo txOracleFail utxoHalf).scriptpubkey_type = none ∧
    (analyze_utxo txOracleFail utxoHalf).risk = "unknown" :=
  (per_utxo_failure_spec txOracleFail txOracleTaproot genesisAddr infoSpent2 [utxoHalf]
      (by decide)).2.1 utxoHalf () rfl

/-- Claim C6: when the address-summary fetch fails, or it succeeds and the
UTXO-set fetch fails, the assessment aborts: an upstream HTTP error is
surfaced with its status preserved, any other failure as a generic
failure, and no report is produced. -/
theorem fatal_fetch_spec (txF : Option String → Except Unit (List VoutEntry))
    (addr : String) (e : FetchErr) (fA : Except FetchErr AddrInfo)
    (fU : Except FetchErr (List Utxo))
    (hv : _validate_btc_addr addr = true)
    (he : fA = .error e ∨ ∃ info, fA = .ok info ∧ fU = .error e) :
    quantum_exposure txF addr fA fU = .error (mapFetchErr e) ∧
    (∀ c, mapFetchErr (.httpStatus c) = .upstream c) ∧
    mapFetchErr .other = .genericFailure ∧
    (∀ r, quantum_exposure txF addr fA fU ≠ .ok r) := by
  have habort : quantum_exposure txF addr fA fU = .error (mapFetchErr e) := by
    rcases he with rfl | ⟨info, rfl, rfl⟩ <;> simp [quantum_exposure, hv]
  exact ⟨habort, fun c => rfl, rfl, fun r hr => by simp [habort] at hr⟩

/-- Witness for C6: a 503 on the UTXO-set fetch aborts the assessment with
the upstream status preserved. -/
theorem fatal_fetch_spec_witness :
    quantum_exposure txOracleFail genesisAddr (.ok infoSpent2)
      (.error (FetchErr.httpStatus 503)) = .error (ApiError.upstream 503) :=
  (fatal_fetch_spec txOracleFail genesisAddr (FetchErr.httpStatus 503)
      (.ok infoSpent2) (.error (FetchErr.httpStatus 503)) (by decide)
      (Or.inr ⟨infoSpent2, rfl, rfl⟩)).1

/-- Claim C8: an address that fails validation is rejected with the
invalid-input error, and the outcome is the same whatever the fetch
results or the transaction oracle would have returned — no external lookup
influences the response. -/
theorem invalid_addr_short_circuit (addr : String)
    (hv : _validate_btc_addr addr = false)
    (txF txF2 : Option String → Except Unit (List VoutEntry))
    (fA fA2 : Except FetchErr AddrInfo) (fU fU2 : Except FetchErr (List Utxo)) :
    quantum_exposure txF addr fA fU = .error .invalidInput ∧
    quantum_exposure txF addr fA fU = quantum_exposure txF2 addr fA2 fU2 := by
  constructor <;> simp [quantum_exposure, hv]

/-- Witness for C8 at the invalid address `"not-an-address"`. -/
theorem invalid_addr_short_circuit_witness :
    quantum_exposure txOracleFail "not-an-address" (.ok infoSpent2) (.ok [utxoHalf])
      = .error .invalidInput :=
  (invalid_addr_short_circuit "not-an-address" (by decide) txOracleFail txOracleTaproot
      (.ok infoSpent2) (.error .other) (.ok [utxoHalf]) (.ok [])).1

/-- Claim C10: `_address_summary` reports `balance_btc = max (received - spent) 0`:
never negative, and exactly 0 whenever the spent total exceeds the funded
total. -/
theorem balance_clamped (info : AddrInfo) :
    (_address_summary info).received_btc = funded_btc info ∧
    (_address_summary info).balance_btc
      = max ((_address_summary info).received_btc - spent_btc info) 0 ∧
    0 ≤ (_address_summary info).balance_btc ∧
    (funded_btc info < spent_btc info → (_address_summary info).balance_btc = 0) := by
  refine ⟨rfl, rfl, le_max_right _ _, fun hlt => ?_⟩
  simp [_address_summary, max_eq_right, sub_nonpos.mpr hlt.le]

lemma matchTail_iff (cs : List Char) :
    matchTail cs = true ↔
      ∃ body tail, cs = body ++ tail ∧ 25 ≤ body.length ∧ body.length ≤ 87 ∧
        (∀ c ∈ body, isAddrChar c = true) ∧ (tail = [] ∨ tail = ['\n']) := by
  unfold matchTail
  by_cases hL : cs.getLast? = some '\n'
  · rw [if_pos hL]
    constructor
    · intro h
      simp only [Bool.and_eq_true, decide_eq_true_eq, List.all_eq_true] at h
      exact ⟨cs.dropLast, ['\n'], (List.dropLast_append_getLast? '\n' hL).symm,
        h.1.1, h.1.2, h.2, Or.inr rfl⟩
    · rintro ⟨body, tail, rfl, h1, h2, h3, rfl | rfl⟩
      · exfalso
        have hm : '\n' ∈ body := by
          have := List.mem_of_getLast?_eq_some (by simpa using hL)
          simpa using this
        have := h3 '\n' hm
        simp [isAddrChar] at this
      · simp only [List.dropLast_concat, Bool.and_eq_true, decide_eq_true_eq,
          List.all_eq_true]
        exact ⟨⟨h1, h2⟩, h3⟩
  · rw [if_neg hL]
    constructor
    · intro h
      simp only [Bool.and_eq_true, decide_eq_true_eq, List.all_eq_true] at h
      exact ⟨cs, [], by simp, h.1.1, h.1.2, h.2, Or.inl rfl⟩
    · rintro ⟨body, tail, rfl, h1, h2, h3, rfl | rfl⟩
      · simp only [List.append_nil, Bool.and_eq_true, decide_eq_true_eq,
          List.all_eq_true]
        exact ⟨⟨h1, h2⟩, h3⟩
      · exact absurd (List.getLast?_concat body) hL

lemma mainnetMatchList_eq (cs : List Char) :
    mainnetMatchList cs = true ↔
      (∃ rest, cs = 'b' :: 'c' :: '1' :: rest ∧ matchTail rest = true) ∨
      (∃ rest, cs = '1' :: rest ∧ matchTail rest = true) ∨
      (∃ rest, cs = '3' :: rest ∧ matchTail rest = true) := by
  constructor
  · intro h
    unfold mainnetMatchList at h
    split at h
    · exact Or.inl ⟨_, rfl, h⟩
    · exact Or.inr (Or.inl ⟨_, rfl, h⟩)
    · exact Or.inr (Or.inr ⟨_, rfl, h⟩)
    · exact absurd h (by simp)
  · rintro (⟨rest, rfl, h⟩ | ⟨rest, rfl, h⟩ | ⟨rest, rfl, h⟩) <;>
      simpa [mainnetMatchList] using h

/-- Claim C7 counterexample: the claim says the validator's alphabet excludes the
base58-ambiguous characters `0`, `O`, `I`, `l`, but the regex class
`[a-zA-HJ-NP-Z0-9]` keeps `0` (and `l`): the concrete string `"1"` followed
by twenty-five `'0'`s is accepted by `_validate_btc_addr` yet rejected by
the validator the claim describes. -/
theorem addr_validator_claim_counterexample :
    _validate_btc_addr (String.mk ('1' :: List.replicate 25 '0')) = true ∧
    claimedValidate (String.mk ('1' :: List.replicate 25 '0')) = false ∧
    claimedAddrChar '0' = false ∧ isAddrChar '0' = true := by
  decide

/-- Claim C7 (amended): `_validate_btc_addr` returns true iff the string is a
`bc1`/`1`/`3` start followed by 25–87 characters of the class
`[a-zA-HJ-NP-Z0-9]` — all lowercase letters (including `l`), uppercase
letters except `I` and `O`, and all digits (including `0`) — optionally
followed by one trailing newline (Python's `$`); false for everything
else. -/
theorem addr_validator_characterization (s : String) :
    _validate_btc_addr s = true ↔
      ∃ p body tail, s.data = p ++ (body ++ tail) ∧
        (p = ['b', 'c', '1'] ∨ p = ['1'] ∨ p = ['3']) ∧
        25 ≤ body.length ∧ body.length ≤ 87 ∧
        (∀ c ∈ body, isAddrChar c = true) ∧
        (tail = [] ∨ tail = ['\n']) := by
  unfold _validate_btc_addr mainnetAddrMatch
  rw [mainnetMatchList_eq]
  constructor
  · rintro (⟨rest, hcs, h⟩ | ⟨rest, hcs, h⟩ | ⟨rest, hcs, h⟩) <;>
      obtain ⟨body, tail, rfl, h1, h2, h3, ht⟩ := (matchTail_iff rest).mp h
    · exact ⟨['b', 'c', '1'], body, tail, by simpa using hcs, Or.inl rfl, h1, h2, h3, ht⟩
    · exact ⟨['1'], body, tail, by simpa using hcs, Or.inr (Or.inl rfl), h1, h2, h3, ht⟩
    · exact ⟨['3'], body, tail, by simpa using hcs, Or.inr (Or.inr rfl), h1, h2, h3, ht⟩
  · rintro ⟨p, body, tail, hcs, rfl | rfl | rfl, h1, h2, h3, ht⟩
    · exact Or.inl ⟨body ++ tail, by simpa using hcs,
        (matchTail_iff _).mpr ⟨body, tail, rfl, h1, h2, h3, ht⟩⟩
    · exact Or.inr (Or.inl ⟨body ++ tail, by simpa using hcs,
        (matchTail_iff _).mpr ⟨body, tail, rfl, h1, h2, h3, ht⟩⟩)
    · exact Or.inr (Or.inr ⟨body ++ tail, by simpa using hcs,
        (matchTail_iff _).mpr ⟨body, tail, rfl, h1, h2, h3, ht⟩⟩)

end BitcoinMini
